import Mathlib

/-!
Shallow embedding of `market_digest.py` (market-tracker): a batch pipeline
that loads feed URLs from a text file, fetches and normalizes RSS entries,
deduplicates them by link, truncates the list, asks a model endpoint for a
schema-constrained JSON digest, and writes each theme to a database API.

Python strings are modelled as lists of characters (`PyStr`), raw feed
entries as records of optional string fields (absent attribute = `none`),
and each external call site (feedparser, the model endpoint, the database
endpoint) as a value supplied by an environment record, so the pipeline
itself is a pure function from that environment to a trace of effects and
a final result.
-/

-- Python `str` as a list of Unicode scalar values.
abbrev PyStr := List Char

-- Coerce a Lean string literal to the Python-string model.
def ps (s : String) : PyStr := s.toList

-- The whitespace class used by Python `str.strip()` (ASCII fragment).
def isWS (c : Char) : Bool := c.isWhitespace

-- Python `str.strip()`: drop whitespace from both ends.
def pyStrip (s : PyStr) : PyStr :=
  ((s.dropWhile isWS).reverse.dropWhile isWS).reverse

-- Python `str.startswith("#")`.
def startsWithHash : PyStr → Bool
  | '#' :: _ => true
  | _ => false

/-- Embedding of `read_sources`: strip each line, keep the lines that are non-blank and
do not start with `#` (the list comprehension at `market_digest.py:27`).
The file is modelled as its list of lines (Python's line iteration). -/
def read_sources (lines : List PyStr) : List PyStr :=
  (lines.filter (fun line => !(pyStrip line).isEmpty && !startsWithHash (pyStrip line))).map pyStrip

-- A raw feedparser entry: each `getattr` target is an optional attribute.
structure RawEntry where
  link : Option PyStr
  title : Option PyStr
  summary : Option PyStr
  published : Option PyStr
  updated : Option PyStr
deriving DecidableEq

-- One parsed feed: the URL it was fetched from and its entries, standing
-- for `feedparser.parse(url).entries`.
structure Feed where
  url : PyStr
  entries : List RawEntry
deriving DecidableEq

structure FeedItem where
  source_feed : PyStr
  title : PyStr
  link : PyStr
  summary : PyStr
  published : PyStr
deriving DecidableEq

/-- The `published` expression at `market_digest.py:37`:
`getattr(e, "published", "") or getattr(e, "updated", "")`. Python's `or`
falls through on a falsy (empty) left operand, so a present-but-empty
`published` attribute still falls back to `updated`. -/
def entryPublished (e : RawEntry) : PyStr :=
  if (e.published.getD []).isEmpty then e.updated.getD [] else e.published.getD []

/-- The per-entry body of the loop at `market_digest.py:34-46`: extract and
normalize the fields, returning `none` when the entry is skipped
(`if not link or not title: continue`; a missing or empty `link`, and a
missing title or one that strips to empty, are all falsy). -/
def entryToItem (url : PyStr) (e : RawEntry) : Option FeedItem :=
  let title := pyStrip (e.title.getD [])
  let summary := pyStrip (e.summary.getD [])
  let published := entryPublished e
  match e.link with
  | none => none
  | some l =>
    if l.isEmpty || title.isEmpty then none
    else some { source_feed := url, title := title, link := l,
                summary := summary.take 700, published := published.take 120 }

/-- The accumulation loop of `fetch_rss_items` before deduplication: at most
the first 25 entries of each feed, each passed through `entryToItem`. -/
def collectItems (feeds : List Feed) : List FeedItem :=
  (feeds.map (fun f => (f.entries.take 25).filterMap (entryToItem f.url))).flatten

/-- The dedup loop at `market_digest.py:49-55`: `seen` is the set of links
already emitted (modelled as a list), first occurrence of each link wins. -/
def dedupByLink : List FeedItem → List PyStr → List FeedItem
  | [], _ => []
  | it :: rest, seen =>
    if it.link ∈ seen then dedupByLink rest seen
    else it :: dedupByLink rest (it.link :: seen)

/-- Embedding of `fetch_rss_items`: collect the normalized entries of every feed, then
deduplicate by link keeping first occurrences. -/
def fetch_rss_items (feeds : List Feed) : List FeedItem :=
  dedupByLink (collectItems feeds) []

/-- Embedding of `pick_top_items`: `items[:max_n]` — a plain prefix of the list (the cap
is a count, so it is modelled as a natural number). -/
def pick_top_items (items : List FeedItem) (max_n : Nat) : List FeedItem :=
  items.take max_n

-- JSON values, as produced by `json.loads`.
inductive Jv where
  | str (s : PyStr)
  | num (n : Int)
  | boolean (b : Bool)
  | null
  | arr (elems : List Jv)
  | obj (fields : List (PyStr × Jv))

-- Python `dict` lookup on a decoded JSON object.
def jLookup (fields : List (PyStr × Jv)) (k : PyStr) : Option Jv :=
  match fields with
  | [] => none
  | (k2, v) :: rest => if k2 = k then some v else jLookup rest k

-- The errors a run can die of once the pipeline is underway.
inductive RunError where
  | jsonDecodeError
  | keyError (k : PyStr)
  | typeError
  | runtimeError (status : Nat) (text : PyStr)
deriving DecidableEq

/-- Python `obj[k]`: `KeyError` when the key is absent, `TypeError` when
the value is not a dict. -/
def pyIndex (j : Jv) (k : PyStr) : Except RunError Jv :=
  match j with
  | .obj fields =>
    match jLookup fields k with
    | some v => .ok v
    | none => .error (.keyError k)
  | _ => .error .typeError

def kAsOf : PyStr := ps "as_of"
def kThemes : PyStr := ps "themes"
def kTheme : PyStr := ps "theme"
def kWhatHappened : PyStr := ps "what_happened"
def kWhyItMatters : PyStr := ps "why_it_matters"
def kMarketImpact : PyStr := ps "market_impact"
def kWatchNext : PyStr := ps "watch_next"
def kConfidence : PyStr := ps "confidence"
def kBestSourceUrl : PyStr := ps "best_source_url"

def themeRequiredKeys : List PyStr :=
  [kTheme, kWhatHappened, kWhyItMatters, kMarketImpact, kWatchNext, kConfidence, kBestSourceUrl]

def confidenceEnumOk : Jv → Bool
  | .str s => decide (s = ps "High") || decide (s = ps "Medium") || decide (s = ps "Low")
  | _ => false

def isJStr : Jv → Bool
  | .str _ => true
  | _ => false

/-- Checker for one entry of the `themes` array under the schema literal at
`market_digest.py:74-90`: an object carrying exactly the seven required
properties, all strings, with `confidence` restricted to the enum. -/
def themeSchemaAccepts : Jv → Bool
  | .obj fields =>
    (themeRequiredKeys.all fun k =>
      match jLookup fields k with
      | some v => if k = kConfidence then confidenceEnumOk v else isJStr v
      | none => false)
    && fields.all (fun kv => decide (kv.1 ∈ themeRequiredKeys))
  | _ => false

/-- Checker for the declared response schema (`market_digest.py:63-95`)
with `maxItems` equal to the given theme cap: an object with exactly
`as_of` (a string) and `themes` (an array of 1..maxThemes theme objects),
no additional properties. -/
def digestSchemaAccepts (maxThemes : Nat) : Jv → Bool
  | .obj fields =>
    (match jLookup fields kAsOf with
     | some (.str _) => true
     | _ => false)
    && (match jLookup fields kThemes with
        | some (.arr ts) =>
          decide (1 ≤ ts.length) && decide (ts.length ≤ maxThemes) && ts.all themeSchemaAccepts
        | _ => false)
    && fields.all (fun kv => decide (kv.1 = kAsOf) || decide (kv.1 = kThemes))
  | _ => false

/-- Config `MAX_ARTICLES` (env-tunable; modelled at its default, 12). -/
def MAX_ARTICLES : Nat := 12

/-- Config `MAX_THEMES` (env-tunable; modelled at its default, 4). -/
def MAX_THEMES : Nat := 4

/-- The model endpoint's reply as the client sees it:
`output_text_parse = some j` when `resp.output_text` parses as the JSON
value `j`, `none` when `json.loads` would raise on it. -/
structure ModelResponse where
  output_text_parse : Option Jv

/-- Embedding of `call_openai_to_extract_themes`: the request carries the prompt (built
from the date and the items) and the strict schema whose checker is
`digestSchemaAccepts MAX_THEMES`; the reply handling is only
`json.loads(resp.output_text)` — no client-side schema validation, the one
failure mode being an unparsable body. -/
def call_openai_to_extract_themes (as_of_date_local : PyStr) (items : List FeedItem)
    (resp : ModelResponse) : Except RunError Jv :=
  match resp.output_text_parse with
  | none => .error .jsonDecodeError
  | some j => .ok j

/-- The database endpoint's reply to one page creation: HTTP status, raw
body text, and the body's JSON parse (`none` when `r.json()` would raise). -/
structure DbResponse where
  status : Nat
  text : PyStr
  jsonBody : Option Jv

/-- The payload dict literal at `market_digest.py:135-147`; the
`theme_obj[...]` accesses happen in the literal's evaluation order and the
first failing one raises before any request is sent. -/
def notionPayload (theme_obj : Jv) (as_of_iso : PyStr) (database_id : PyStr) :
    Except RunError Jv := do
  let t ← pyIndex theme_obj kTheme
  let wh ← pyIndex theme_obj kWhatHappened
  let why ← pyIndex theme_obj kWhyItMatters
  let mi ← pyIndex theme_obj kMarketImpact
  let wn ← pyIndex theme_obj kWatchNext
  let conf ← pyIndex theme_obj kConfidence
  let url ← pyIndex theme_obj kBestSourceUrl
  .ok (Jv.obj [
    (ps "parent", .obj [(ps "database_id", .str database_id)]),
    (ps "properties", .obj [
      (ps "Theme", .obj [(ps "title", .arr [.obj [(ps "text", .obj [(ps "content", t)])]])]),
      (ps "As of", .obj [(ps "date", .obj [(ps "start", .str as_of_iso)])]),
      (ps "What happened", .obj [(ps "rich_text", .arr [.obj [(ps "text", .obj [(ps "content", wh)])]])]),
      (ps "Why it matters", .obj [(ps "rich_text", .arr [.obj [(ps "text", .obj [(ps "content", why)])]])]),
      (ps "Market impact", .obj [(ps "rich_text", .arr [.obj [(ps "text", .obj [(ps "content", mi)])]])]),
      (ps "Watch next", .obj [(ps "rich_text", .arr [.obj [(ps "text", .obj [(ps "content", wn)])]])]),
      (ps "Confidence", .obj [(ps "select", .obj [(ps "name", conf)])]),
      (ps "Sources", .obj [(ps "url", url)])])])

/-- Embedding of `notion_create_page`: build the payload, issue exactly one POST with
it, then check the status — `>= 300` raises
`RuntimeError(f"Notion error {status}: {text}")`, anything below returns
`r.json()`. The first component lists the requests actually issued. -/
def notion_create_page (theme_obj : Jv) (as_of_iso : PyStr) (database_id : PyStr)
    (resp : DbResponse) : List Jv × Except RunError Jv :=
  match notionPayload theme_obj as_of_iso database_id with
  | .error e => ([], .error e)
  | .ok payload =>
    if 300 ≤ resp.status then ([payload], .error (.runtimeError resp.status resp.text))
    else
      match resp.jsonBody with
      | some j => ([payload], .ok j)
      | none => ([payload], .error .jsonDecodeError)

-- Local wall-clock datetime, the result of `astimezone(zurich)`.
structure PyDateTime where
  year : Nat
  month : Nat
  day : Nat
  hour : Nat
  minute : Nat
  second : Nat
deriving DecidableEq

structure PyDate where
  year : Nat
  month : Nat
  day : Nat
deriving DecidableEq

/-- Python `datetime.date()`: drop the time fields. -/
def PyDateTime.date (dt : PyDateTime) : PyDate := ⟨dt.year, dt.month, dt.day⟩

def digitChar (n : Nat) : Char := Char.ofNat (48 + n)

/-- Decimal digits of a positive number, most significant first, with no
padding (how C renders `%d`); the first argument is recursion fuel, and
any fuel of at least `n` yields the digits of `n`. -/
def natDigitsGo : Nat → Nat → List Char
  | _, 0 => []
  | 0, _ + 1 => []
  | fuel + 1, n + 1 => natDigitsGo fuel ((n + 1) / 10) ++ [digitChar ((n + 1) % 10)]

def natDigits (n : Nat) : List Char :=
  if n = 0 then ['0'] else natDigitsGo n n

def padZero (w : Nat) (s : List Char) : List Char :=
  List.replicate (w - s.length) '0' ++ s

/-- The fragment of C `strftime` that the format `"%Y-%m-%d"` exercises:
`%Y` renders the year unpadded (glibc), `%m` and `%d` zero-pad to two
digits, every other character is copied through. -/
def strftime (dt : PyDateTime) : List Char → PyStr
  | '%' :: 'Y' :: rest => natDigits dt.year ++ strftime dt rest
  | '%' :: 'm' :: rest => padZero 2 (natDigits dt.month) ++ strftime dt rest
  | '%' :: 'd' :: rest => padZero 2 (natDigits dt.day) ++ strftime dt rest
  | c :: rest => c :: strftime dt rest
  | [] => []

/-- Python `date.isoformat()`: `YYYY-MM-DD`, year zero-padded to four digits,
month and day to two. -/
def PyDate.isoformat (d : PyDate) : PyStr :=
  padZero 4 (natDigits d.year) ++ '-' :: (padZero 2 (natDigits d.month) ++ '-' :: padZero 2 (natDigits d.day))

/-- Embedding of `as_of_date_local = now_local.strftime("%Y-%m-%d")` (market_digest.py:157). -/
def mainAsOfDateLocal (now_local : PyDateTime) : PyStr :=
  strftime now_local (ps "%Y-%m-%d")

/-- Embedding of `as_of_iso = now_local.date().isoformat()` (market_digest.py:158). -/
def mainAsOfIso (now_local : PyDateTime) : PyStr :=
  (now_local.date).isoformat

-- One observable effect of a run.
inductive Effect where
  | modelCall (as_of : PyStr)
  | dbCall (payload : Jv)
  | printed (s : PyStr)
  | printedCreated (created : Nat) (as_of : Jv)

def Effect.isModelCall : Effect → Bool
  | .modelCall _ => true
  | _ => false

def Effect.isDbCall : Effect → Bool
  | .dbCall _ => true
  | _ => false

def countDbCalls (tr : List Effect) : Nat := (tr.filter Effect.isDbCall).length

def countModelCalls (tr : List Effect) : Nat := (tr.filter Effect.isModelCall).length

/-- Everything outside the process that one run observes: the config
file's lines, the parsed entries behind each feed URL, the model
endpoint's reply, the database endpoint's reply to each successive page
creation, and the database-collection identifier spliced into payloads. -/
structure Env where
  sourceLines : List PyStr
  feedEntries : PyStr → List RawEntry
  modelResp : ModelResponse
  dbResp : Nat → DbResponse
  notionDatabaseId : PyStr

/-- The publish loop at `market_digest.py:169-173`: one page per theme in
order, counting successes, aborting on the first error; `dbResp created`
is the endpoint's reply to the next request. -/
def publishThemes (as_of_iso database_id : PyStr) (dbResp : Nat → DbResponse) :
    List Jv → Nat → List Effect × Except RunError Nat
  | [], created => ([], .ok created)
  | t :: rest, created =>
    let r := notion_create_page t as_of_iso database_id (dbResp created)
    match r.2 with
    | .error e => (r.1.map Effect.dbCall, .error e)
    | .ok _ =>
      let next := publishThemes as_of_iso database_id dbResp rest (created + 1)
      (r.1.map Effect.dbCall ++ next.1, next.2)

/-- The source's `main` (market_digest.py:154-175; the name `main` is reserved in Lean) as a function of the Zurich-local
current datetime and the environment: the effect trace and the outcome
(`.ok ()` = the process exits with code zero). Iterating a `themes` value
that is not a JSON array is modelled as the type error Python raises in
all but degenerate cases of such a value. -/
def mainRun (now_local : PyDateTime) (env : Env) : List Effect × Except RunError Unit :=
  let as_of_date_local := mainAsOfDateLocal now_local
  let as_of_iso := mainAsOfIso now_local
  let feeds := (read_sources env.sourceLines).map (fun u => Feed.mk u (env.feedEntries u))
  let items := fetch_rss_items feeds
  if items.isEmpty then ([.printed (ps "No RSS items found.")], .ok ())
  else
    let selected := pick_top_items items MAX_ARTICLES
    match call_openai_to_extract_themes as_of_date_local selected env.modelResp with
    | .error e => ([.modelCall as_of_date_local], .error e)
    | .ok digest =>
      match pyIndex digest kThemes with
      | .error e => ([.modelCall as_of_date_local], .error e)
      | .ok (.arr themes) =>
        let pub := publishThemes as_of_iso env.notionDatabaseId env.dbResp themes 0
        match pub.2 with
        | .error e => (Effect.modelCall as_of_date_local :: pub.1, .error e)
        | .ok created =>
          match pyIndex digest kAsOf with
          | .error e => (Effect.modelCall as_of_date_local :: pub.1, .error e)
          | .ok asof =>
            (Effect.modelCall as_of_date_local :: pub.1 ++ [.printedCreated created asof], .ok ())
      | .ok _ => ([.modelCall as_of_date_local], .error .typeError)

-- ### Statements of claims that turn out to fail on the code, and the
-- concrete fixtures used to refute or witness them.

/-- The flattened raw-entry sequence of a feed list: feed-list order, then
entry order within a feed, each entry tagged with its feed URL. -/
def rawSeq (feeds : List Feed) : List (PyStr × RawEntry) :=
  (feeds.map (fun f => f.entries.map (fun e => (f.url, e)))).flatten

/-- Claim C2 as stated: output links are pairwise distinct, and of ANY two
raw entries sharing a link (feed-list order, then entry order), the
first-encountered one is the one whose normalized image survives in the
fetcher output. -/
def claimC2AsStated : Prop :=
  ∀ feeds : List Feed,
    (fetch_rss_items feeds).Pairwise (fun a b => a.link ≠ b.link) ∧
    ∀ i j : Fin (rawSeq feeds).length, (i : Nat) < (j : Nat) →
      ((rawSeq feeds).get i).2.link ≠ none →
      ((rawSeq feeds).get i).2.link = ((rawSeq feeds).get j).2.link →
      ∃ it ∈ fetch_rss_items feeds,
        entryToItem ((rawSeq feeds).get i).1 ((rawSeq feeds).get i).2 = some it

/-- Two feeds whose raw entries share the link `"a"`: the first-encountered
one has a blank title, so it is the one the fetcher SKIPS. -/
def feedsCex : List Feed :=
  [⟨ps "u1", [⟨some (ps "a"), some (ps " "), none, none, none⟩]⟩,
   ⟨ps "u2", [⟨some (ps "a"), some (ps "T"), none, none, none⟩]⟩]

/-- Claim C5 as stated: `published` is taken from the entry's `published`
attribute whenever that attribute is present, falls back to `updated`
otherwise, and is empty when neither is present. -/
def claimC5AsStated : Prop :=
  ∀ e : RawEntry,
    (∀ p, e.published = some p → entryPublished e = p) ∧
    (e.published = none → ∀ u, e.updated = some u → entryPublished e = u) ∧
    (e.published = none → e.updated = none → entryPublished e = [])

/-- Claim C1 as stated (its schema-violation half): whenever the model
endpoint returns parseable content that fails the declared schema, the
extractor fails. -/
def claimC1AsStated : Prop :=
  ∀ (as_of : PyStr) (items : List FeedItem) (resp : ModelResponse) (j : Jv),
    resp.output_text_parse = some j →
    digestSchemaAccepts MAX_THEMES j = false →
    ∃ e, call_openai_to_extract_themes as_of items resp = .error e

-- A theme object that satisfies the declared theme schema.
def themeOkJv : Jv :=
  .obj [(kTheme, .str (ps "T")), (kWhatHappened, .str (ps "W")),
        (kWhyItMatters, .str (ps "Y")), (kMarketImpact, .str (ps "M")),
        (kWatchNext, .str (ps "N")), (kConfidence, .str (ps "High")),
        (kBestSourceUrl, .str (ps "a"))]

-- A digest whose `themes` array has 5 entries: parseable JSON that
-- violates the declared schema when `MAX_THEMES = 4`.
def fiveThemeDigest : Jv :=
  .obj [(kAsOf, .str (ps "2026-10-12")), (kThemes, .arr (List.replicate 5 themeOkJv))]

-- A digest with 4 themes: accepted by the declared schema.
def fourThemeDigest : Jv :=
  .obj [(kAsOf, .str (ps "2026-10-12")), (kThemes, .arr (List.replicate 4 themeOkJv))]

/-- An environment in which one item is fetched, the model endpoint
returns the 5-theme digest, and every database write succeeds. -/
def envCex : Env where
  sourceLines := [ps "u"]
  feedEntries := fun _ => [⟨some (ps "a"), some (ps "T"), none, none, none⟩]
  modelResp := ⟨some fiveThemeDigest⟩
  dbResp := fun _ => ⟨200, [], some (.obj [])⟩
  notionDatabaseId := ps "db"

def dtCex : PyDateTime := ⟨2026, 10, 12, 9, 0, 0⟩

/-- An environment whose config file is empty, so the fetch yields zero
items. -/
def envNoItems : Env where
  sourceLines := []
  feedEntries := fun _ => []
  modelResp := ⟨none⟩
  dbResp := fun _ => ⟨200, [], none⟩
  notionDatabaseId := ps "db"

-- The spec's end-to-end scenario A feed list.
def feedsScenA : List Feed :=
  [⟨ps "u1", [⟨some (ps "a"), some (ps "T1"), none, none, none⟩,
              ⟨some (ps "b"), some (ps ""), none, none, none⟩]⟩,
   ⟨ps "u2", [⟨some (ps "a"), some (ps "T1-dup"), none, none, none⟩,
              ⟨some (ps "c"), some (ps "T3"), none, none, none⟩]⟩]

example : read_sources [ps "  # c", ps " a ", ps "", ps "a"] = [ps "a", ps "a"] := by decide

-- ### Helper lemmas about `pyStrip`

theorem dropWhile_dropWhile {α : Type} (p : α → Bool) (l : List α) :
    (l.dropWhile p).dropWhile p = l.dropWhile p := by
  induction l with
  | nil => rfl
  | cons a t ih =>
    by_cases h : p a
    · simp [List.dropWhile_cons, h, ih]
    · simp [List.dropWhile_cons, h]

theorem dropWhile_eq_self_of_pre {α : Type} {p : α → Bool} {l m : List α}
    (hl : l.dropWhile p = l) (hm : m <+: l) : m.dropWhile p = m := by
  cases m with
  | nil => rfl
  | cons b t =>
    obtain ⟨r, hr⟩ := hm
    subst hr
    rw [List.cons_append] at hl
    rw [List.dropWhile_cons] at hl ⊢
    split at hl
    · have hlen := congrArg List.length hl
      have hle := (List.dropWhile_sublist (l := t ++ r) p).length_le
      simp only [List.length_cons] at hlen
      omega
    · next hpb => simp [hpb]

theorem pyStrip_idem (s : PyStr) : pyStrip (pyStrip s) = pyStrip s := by
  have hAtrim : ((s.dropWhile isWS).dropWhile isWS) = s.dropWhile isWS :=
    dropWhile_dropWhile isWS s
  have hBpre : pyStrip s <+: s.dropWhile isWS := by
    have hsuf : (s.dropWhile isWS).reverse.dropWhile isWS <:+ (s.dropWhile isWS).reverse :=
      List.dropWhile_suffix isWS
    have h := List.reverse_prefix.mpr hsuf
    rwa [List.reverse_reverse] at h
  have h1 : (pyStrip s).dropWhile isWS = pyStrip s :=
    dropWhile_eq_self_of_pre hAtrim hBpre
  show ((((pyStrip s).dropWhile isWS).reverse).dropWhile isWS).reverse = pyStrip s
  rw [h1]
  have h2 : (pyStrip s).reverse = (s.dropWhile isWS).reverse.dropWhile isWS := by
    simp [pyStrip]
  rw [h2, dropWhile_dropWhile, ← h2, List.reverse_reverse]

-- ### C6: the Item Selector

/-- C6: for every item list of length `N` and cap `K`, `pick_top_items`
returns a prefix of the input of length `min N K` — exactly the first `K`
items in their original order, unmodified. -/
theorem pick_top_items_first_k (items : List FeedItem) (max_n : Nat) :
    (pick_top_items items max_n).length = min items.length max_n ∧
    pick_top_items items max_n <+: items ∧
    pick_top_items items max_n = items.take max_n := by
  refine ⟨?_, List.take_prefix max_n items, rfl⟩
  simp [pick_top_items, Nat.min_comm]

-- ### C7: the Source List Loader

/-- C7: every line `read_sources` returns is non-blank, does not start
with the comment marker, and is whitespace-trimmed; the output is exactly
the stripped forms of the surviving lines in their original order, with
duplicates kept. -/
theorem read_sources_clean_lines (lines : List PyStr) :
    (∀ s ∈ read_sources lines,
        s ≠ [] ∧ startsWithHash s = false ∧ pyStrip s = s) ∧
    read_sources lines =
      (lines.map pyStrip).filter (fun s => !s.isEmpty && !startsWithHash s) := by
  constructor
  · intro s hs
    simp only [read_sources, List.mem_map, List.mem_filter] at hs
    obtain ⟨l, ⟨_, hpred⟩, rfl⟩ := hs
    have h := hpred
    simp only [Bool.and_eq_true, Bool.not_eq_true'] at h
    obtain ⟨hne, hhash⟩ := h
    refine ⟨?_, hhash, pyStrip_idem l⟩
    intro hcontra
    rw [hcontra] at hne
    simp at hne
  · rw [read_sources, List.filter_map]
    rfl

example :
    fetch_rss_items
      [⟨ps "u1", [⟨some (ps "a"), some (ps "T1"), none, none, none⟩,
                  ⟨some (ps "b"), some (ps ""), none, none, none⟩]⟩,
       ⟨ps "u2", [⟨some (ps "a"), some (ps "T1-dup"), none, none, none⟩,
                  ⟨some (ps "c"), some (ps "T3"), none, none, none⟩]⟩] =
      [⟨ps "u1", ps "T1", ps "a", ps "", ps ""⟩,
       ⟨ps "u2", ps "T3", ps "c", ps "", ps ""⟩] := by decide

-- ### Helper lemmas about the fetcher

theorem dedupByLink_sublist (l : List FeedItem) (seen : List PyStr) :
    List.Sublist (dedupByLink l seen) l := by
  induction l generalizing seen with
  | nil => simp [dedupByLink]
  | cons a t ih =>
    simp only [dedupByLink]
    by_cases h : a.link ∈ seen
    · rw [if_pos h]; exact (ih seen).cons a
    · rw [if_neg h]; exact (ih (a.link :: seen)).cons₂ a

theorem dedupByLink_not_seen {l : List FeedItem} {seen : List PyStr} :
    ∀ it ∈ dedupByLink l seen, it.link ∉ seen := by
  induction l generalizing seen with
  | nil => intro it h; simp [dedupByLink] at h
  | cons a t ih =>
    intro it hmem
    simp only [dedupByLink] at hmem
    by_cases h : a.link ∈ seen
    · rw [if_pos h] at hmem; exact ih it hmem
    · rw [if_neg h] at hmem
      rcases List.mem_cons.mp hmem with rfl | hmem2
      · exact h
      · have h2 := ih it hmem2
        intro hc
        exact h2 (List.mem_cons_of_mem _ hc)

theorem dedupByLink_pairwise (l : List FeedItem) (seen : List PyStr) :
    (dedupByLink l seen).Pairwise (fun a b => a.link ≠ b.link) := by
  induction l generalizing seen with
  | nil => simp [dedupByLink]
  | cons a t ih =>
    simp only [dedupByLink]
    by_cases h : a.link ∈ seen
    · rw [if_pos h]; exact ih seen
    · rw [if_neg h]
      refine List.Pairwise.cons ?_ (ih (a.link :: seen))
      intro b hb hab
      exact (dedupByLink_not_seen b hb) (hab ▸ List.mem_cons_self a.link seen)

theorem dedupByLink_survivor {l : List FeedItem} {seen : List PyStr} :
    ∀ it ∈ l, it.link ∉ seen → ∃ it2 ∈ dedupByLink l seen, it2.link = it.link := by
  induction l generalizing seen with
  | nil => intro it h; simp at h
  | cons a t ih =>
    intro it hmem hns
    simp only [dedupByLink]
    by_cases h : a.link ∈ seen
    · rw [if_pos h]
      rcases List.mem_cons.mp hmem with rfl | hmem2
      · exact absurd h hns
      · exact ih it hmem2 hns
    · rw [if_neg h]
      rcases List.mem_cons.mp hmem with rfl | hmem2
      · exact ⟨it, List.mem_cons_self it _, rfl⟩
      · by_cases hlink : it.link = a.link
        · exact ⟨a, List.mem_cons_self a _, hlink.symm⟩
        · have hns2 : it.link ∉ a.link :: seen := by
            intro hc
            rcases List.mem_cons.mp hc with hc2 | hc2
            · exact hlink hc2
            · exact hns hc2
          obtain ⟨it2, h2, h3⟩ := ih it hmem2 hns2
          exact ⟨it2, List.mem_cons_of_mem a h2, h3⟩

theorem dedupByLink_first_wins {l : List FeedItem} {seen : List PyStr} :
    ∀ it2 ∈ dedupByLink l seen,
      l.find? (fun x => decide (x.link = it2.link)) = some it2 := by
  induction l generalizing seen with
  | nil => intro it2 h; simp [dedupByLink] at h
  | cons a t ih =>
    intro it2 hmem
    simp only [dedupByLink] at hmem
    by_cases h : a.link ∈ seen
    · rw [if_pos h] at hmem
      have hns := dedupByLink_not_seen it2 hmem
      have hne : ¬ (a.link = it2.link) := fun he => hns (he ▸ h)
      rw [List.find?_cons_of_neg _ (by simpa using hne)]
      exact ih it2 hmem
    · rw [if_neg h] at hmem
      rcases List.mem_cons.mp hmem with rfl | hmem2
      · rw [List.find?_cons_of_pos _ (by simp)]
      · have hns := dedupByLink_not_seen it2 hmem2
        have hne : ¬ (a.link = it2.link) := by
          intro he
          exact hns (he ▸ List.mem_cons_self a.link seen)
        rw [List.find?_cons_of_neg _ (by simpa using hne)]
        exact ih it2 hmem2

theorem entryToItem_fields {u : PyStr} {e : RawEntry} {it : FeedItem}
    (h : entryToItem u e = some it) :
    it.source_feed = u ∧
    it.summary = (pyStrip (e.summary.getD [])).take 700 ∧
    it.published = (entryPublished e).take 120 ∧
    e.link = some it.link ∧
    it.title = pyStrip (e.title.getD []) := by
  simp only [entryToItem] at h
  split at h
  · exact absurd h (by simp)
  · rename_i l hl
    split at h
    · exact absurd h (by simp)
    · injection h with h
      subst h
      exact ⟨rfl, rfl, rfl, hl, rfl⟩

theorem fetch_provenance {feeds : List Feed} {it : FeedItem}
    (h : it ∈ fetch_rss_items feeds) :
    ∃ f ∈ feeds, ∃ e2 ∈ f.entries.take 25, entryToItem f.url e2 = some it := by
  have hcol : it ∈ collectItems feeds :=
    (dedupByLink_sublist (collectItems feeds) []).subset h
  simp only [collectItems, List.mem_flatten, List.mem_map] at hcol
  obtain ⟨l, ⟨f, hf, rfl⟩, hit⟩ := hcol
  obtain ⟨e2, he2, hsome⟩ := List.mem_filterMap.mp hit
  exact ⟨f, hf, e2, he2, hsome⟩

-- ### C3: skipped entries

/-- C3: an entry lacking a link, lacking a title, or whose title strips to
the empty string, normalizes to `none` and so never appears in the
fetcher's output — every output item is the image of an entry whose
extraction succeeded. -/
theorem skipped_entries_absent (feeds : List Feed) (u : PyStr) (e : RawEntry)
    (h : e.link = none ∨ e.title = none ∨ pyStrip (e.title.getD []) = []) :
    entryToItem u e = none ∧
    ∀ it ∈ fetch_rss_items feeds,
      ∃ f ∈ feeds, ∃ e2 ∈ f.entries.take 25, entryToItem f.url e2 = some it := by
  constructor
  · rcases h with h | h | h
    · simp [entryToItem, h]
    · unfold entryToItem
      rw [h]
      cases e.link with
      | none => rfl
      | some l => simp [pyStrip]
    · unfold entryToItem
      rw [h]
      cases e.link with
      | none => rfl
      | some l => simp
  · intro it hit
    exact fetch_provenance hit

/-- Witness for C3 at a concrete skipped entry. -/
theorem skipped_entries_absent_witness :
    entryToItem (ps "u") ⟨some (ps "a"), some (ps "  "), none, none, none⟩ = none :=
  (skipped_entries_absent [] (ps "u") ⟨some (ps "a"), some (ps "  "), none, none, none⟩
    (Or.inr (Or.inr (by decide)))).1

-- ### C4: truncation bounds

/-- C4: every FeedItem in the fetcher's output carries a `summary` of at
most 700 characters and a `published` of at most 120. -/
theorem item_field_bounds (feeds : List Feed) (it : FeedItem)
    (h : it ∈ fetch_rss_items feeds) :
    it.summary.length ≤ 700 ∧ it.published.length ≤ 120 := by
  obtain ⟨f, _, e2, _, hsome⟩ := fetch_provenance h
  obtain ⟨_, hsum, hpub, _, _⟩ := entryToItem_fields hsome
  constructor
  · rw [hsum, List.length_take]
    omega
  · rw [hpub, List.length_take]
    omega

/-- Witness for C4 on an item fetched from a feed whose summary and
published fields exceed the limits. -/
theorem item_field_bounds_witness :
    (⟨ps "u", ps "T", ps "a", ps "s", ps "d"⟩ : FeedItem).summary.length ≤ 700 ∧
    (⟨ps "u", ps "T", ps "a", ps "s", ps "d"⟩ : FeedItem).published.length ≤ 120 :=
  item_field_bounds
    [⟨ps "u", [⟨some (ps "a"), some (ps "T"), some (ps "s"), some (ps "d"), none⟩]⟩]
    ⟨ps "u", ps "T", ps "a", ps "s", ps "d"⟩ (by decide)

-- ### C5: the published/updated fallback

/-- Counterexample to C5 as stated: an entry whose `published` attribute
is present but empty while `updated` is `"u"` — the code yields `"u"`,
not the present `published` value. -/
theorem published_field_cex : ¬ claimC5AsStated := by
  intro h
  have h1 := (h ⟨none, none, none, some [], some (ps "u")⟩).1 [] rfl
  exact absurd h1 (by decide)

/-- C5 (amended): the pre-truncation `published` value is the entry's
`published` attribute when present AND non-empty; when `published` is
absent or empty it is the `updated` attribute (empty when that too is
absent); and the FeedItem stores its first 120 characters. -/
theorem published_fallback (e : RawEntry) :
    (∀ p, e.published = some p → p ≠ [] → entryPublished e = p) ∧
    ((e.published = none ∨ e.published = some []) →
       entryPublished e = e.updated.getD []) ∧
    (∀ u it, entryToItem u e = some it →
       it.published = (entryPublished e).take 120) := by
  refine ⟨?_, ?_, ?_⟩
  · intro p hp hne
    cases p with
    | nil => exact absurd rfl hne
    | cons c t => simp [entryPublished, hp]
  · intro h
    rcases h with h | h <;> simp [entryPublished, h]
  · intro u it hit
    exact (entryToItem_fields hit).2.2.1

/-- Witness for C5 (amended) at concrete entries exercising both the
present-and-non-empty case and the present-but-empty fallback case. -/
theorem published_fallback_witness :
    entryPublished ⟨none, none, none, some (ps "P"), some (ps "U")⟩ = ps "P" ∧
    entryPublished ⟨none, none, none, some [], some (ps "U")⟩ = ps "U" :=
  ⟨(published_fallback ⟨none, none, none, some (ps "P"), some (ps "U")⟩).1
      (ps "P") rfl (by decide),
   (published_fallback ⟨none, none, none, some [], some (ps "U")⟩).2.1 (Or.inr rfl)⟩

-- ### C2: deduplication by link

/-- Counterexample to C2 as stated: in `feedsCex` the two raw entries
share the link `"a"`, but the first-encountered one has a blank title and
is skipped, so the survivor is the second entry's image, not the first's. -/
theorem dedup_first_encountered_cex : ¬ claimC2AsStated := by
  intro h
  exact absurd (h feedsCex) (by decide)

/-- C2 (amended): the fetcher output has pairwise-distinct links and is a
sublist of the pre-dedup item list (order preserved, items unmodified);
every pre-dedup item's link survives; and each output item is exactly the
first pre-dedup item bearing its link. Raw entries only contribute
pre-dedup items when they are among the first 25 of their feed and pass
the link/title check. -/
theorem fetch_dedup_first_wins (feeds : List Feed) :
    (fetch_rss_items feeds).Pairwise (fun a b => a.link ≠ b.link) ∧
    List.Sublist (fetch_rss_items feeds) (collectItems feeds) ∧
    (∀ it ∈ collectItems feeds, ∃ it2 ∈ fetch_rss_items feeds, it2.link = it.link) ∧
    (∀ it2 ∈ fetch_rss_items feeds,
       (collectItems feeds).find? (fun x => decide (x.link = it2.link)) = some it2) := by
  refine ⟨dedupByLink_pairwise _ _, dedupByLink_sublist _ _, ?_, ?_⟩
  · intro it hit
    exact dedupByLink_survivor it hit (by simp)
  · intro it2 h2
    exact dedupByLink_first_wins it2 h2

/-- Witness for C2 (amended) on the spec's scenario-A feed list: the
duplicate of link `"a"` from feed 2 is dropped and the survivor is the
first pre-dedup item with that link. -/
theorem fetch_dedup_first_wins_witness :
    (collectItems feedsScenA).find?
        (fun x => decide (x.link = (⟨ps "u1", ps "T1", ps "a", [], []⟩ : FeedItem).link)) =
      some ⟨ps "u1", ps "T1", ps "a", [], []⟩ :=
  (fetch_dedup_first_wins feedsScenA).2.2.2 ⟨ps "u1", ps "T1", ps "a", [], []⟩ (by decide)

-- ### C1: schema violations from the model endpoint

/-- Counterexample to C1 as stated: the 5-theme digest violates the
declared schema (`MAX_THEMES = 4`), yet the extractor does not fail — and
the whole run accepts it, issues five database writes and exits with code
zero (no truncation, no failure). -/
theorem schema_violation_not_failed_cex :
    ¬ claimC1AsStated ∧
    digestSchemaAccepts MAX_THEMES fiveThemeDigest = false ∧
    countDbCalls (mainRun dtCex envCex).1 = 5 ∧
    (mainRun dtCex envCex).2 = .ok () := by
  refine ⟨?_, rfl, rfl, rfl⟩
  intro h
  obtain ⟨e, he⟩ := h [] [] ⟨some fiveThemeDigest⟩ fiveThemeDigest rfl rfl
  exact absurd he (by simp [call_openai_to_extract_themes])

theorem digestSchemaAccepts_bounds {mt : Nat} {j : Jv} {ts : List Jv}
    (hacc : digestSchemaAccepts mt j = true)
    (hidx : pyIndex j kThemes = .ok (.arr ts)) :
    1 ≤ ts.length ∧ ts.length ≤ mt := by
  cases j with
  | obj fields =>
    simp only [digestSchemaAccepts, Bool.and_eq_true] at hacc
    obtain ⟨⟨_, hB⟩, _⟩ := hacc
    simp only [pyIndex] at hidx
    cases hlk : jLookup fields kThemes with
    | none =>
      rw [hlk] at hidx
      exact absurd hidx (by simp)
    | some v =>
      rw [hlk] at hidx hB
      cases v with
      | arr ts2 =>
        injection hidx with hidx
        injection hidx with hidx
        subst hidx
        simp only [Bool.and_eq_true, decide_eq_true_eq] at hB
        exact hB.1
      | str s => simp at hB
      | num n => simp at hB
      | boolean b => simp at hB
      | null => simp at hB
      | obj fs => simp at hB
  | str s => simp [digestSchemaAccepts] at hacc
  | num n => simp [digestSchemaAccepts] at hacc
  | boolean b => simp [digestSchemaAccepts] at hacc
  | null => simp [digestSchemaAccepts] at hacc
  | arr ts2 => simp [digestSchemaAccepts] at hacc

/-- C1 (amended): an unparsable model response makes the extractor (and so
the run) fail; a parseable one is returned verbatim with no client-side
validation; the cap of 1..MAX_THEMES on the `themes` array lives only in
the declared request schema, which a conforming endpoint enforces. -/
theorem extract_no_client_validation (as_of : PyStr) (items : List FeedItem)
    (resp : ModelResponse) :
    (resp.output_text_parse = none →
       call_openai_to_extract_themes as_of items resp = .error .jsonDecodeError) ∧
    (∀ j, resp.output_text_parse = some j →
       call_openai_to_extract_themes as_of items resp = .ok j) ∧
    (∀ mt j ts, digestSchemaAccepts mt j = true →
       pyIndex j kThemes = .ok (.arr ts) → 1 ≤ ts.length ∧ ts.length ≤ mt) := by
  refine ⟨?_, ?_, ?_⟩
  · intro h
    simp [call_openai_to_extract_themes, h]
  · intro j h
    simp [call_openai_to_extract_themes, h]
  · intro mt j ts hacc hidx
    exact digestSchemaAccepts_bounds hacc hidx

/-- Witness for C1 (amended): an unparsable reply errors, a parsed 4-theme
digest is returned verbatim, and the declared schema accepts it within the
cap. -/
theorem extract_no_client_validation_witness :
    call_openai_to_extract_themes (ps "d") [] ⟨none⟩ = .error .jsonDecodeError ∧
    call_openai_to_extract_themes (ps "d") [] ⟨some fourThemeDigest⟩ = .ok fourThemeDigest ∧
    (1 ≤ (List.replicate 4 themeOkJv).length ∧
      (List.replicate 4 themeOkJv).length ≤ MAX_THEMES) :=
  ⟨(extract_no_client_validation (ps "d") [] ⟨none⟩).1 rfl,
   (extract_no_client_validation (ps "d") [] ⟨some fourThemeDigest⟩).2.1 fourThemeDigest rfl,
   (extract_no_client_validation (ps "d") [] ⟨none⟩).2.2 MAX_THEMES fourThemeDigest
     (List.replicate 4 themeOkJv) rfl rfl⟩

-- ### C8: the zero-items early exit

/-- C8: whenever the fetch yields no items, the run prints exactly the
fixed notice and exits successfully, issuing no model call and no
database call. -/
theorem no_items_early_exit (now_local : PyDateTime) (env : Env)
    (h : fetch_rss_items ((read_sources env.sourceLines).map
           (fun u => Feed.mk u (env.feedEntries u))) = []) :
    mainRun now_local env = ([.printed (ps "No RSS items found.")], .ok ()) ∧
    countModelCalls (mainRun now_local env).1 = 0 ∧
    countDbCalls (mainRun now_local env).1 = 0 := by
  have h1 : mainRun now_local env = ([.printed (ps "No RSS items found.")], .ok ()) := by
    simp only [mainRun]
    rw [h]
    rfl
  refine ⟨h1, ?_, ?_⟩ <;> rw [h1] <;> rfl

/-- Witness for C8 on an environment with an empty config file. -/
theorem no_items_early_exit_witness :
    mainRun dtCex envNoItems = ([.printed (ps "No RSS items found.")], .ok ()) ∧
    countModelCalls (mainRun dtCex envNoItems).1 = 0 ∧
    countDbCalls (mainRun dtCex envNoItems).1 = 0 :=
  no_items_early_exit dtCex envNoItems rfl

-- ### C9: the Digest Publisher's status check

/-- C9: given a theme whose payload builds and a response whose body
parses (the endpoint's documented success shape), `notion_create_page`
issues exactly one request (no retry), raises the runtime error carrying
the status and body text exactly when the status is ≥ 300, and returns
the parsed body on anything below. -/
theorem notion_status_gate (theme_obj : Jv) (as_of_iso database_id : PyStr)
    (resp : DbResponse) (p : Jv)
    (hp : notionPayload theme_obj as_of_iso database_id = .ok p)
    (bj : Jv) (hb : resp.jsonBody = some bj) :
    (notion_create_page theme_obj as_of_iso database_id resp).1 = [p] ∧
    (300 ≤ resp.status →
       (notion_create_page theme_obj as_of_iso database_id resp).2 =
         .error (.runtimeError resp.status resp.text)) ∧
    (resp.status < 300 →
       (notion_create_page theme_obj as_of_iso database_id resp).2 = .ok bj) ∧
    ((∃ e, (notion_create_page theme_obj as_of_iso database_id resp).2 = .error e) ↔
       300 ≤ resp.status) := by
  have hcore : notion_create_page theme_obj as_of_iso database_id resp =
      (if 300 ≤ resp.status then
        ([p], .error (.runtimeError resp.status resp.text))
       else
        match resp.jsonBody with
        | some j => ([p], .ok j)
        | none => ([p], .error .jsonDecodeError)) := by
    unfold notion_create_page
    rw [hp]
  rw [hcore, hb]
  by_cases hs : 300 ≤ resp.status
  · rw [if_pos hs]
    refine ⟨rfl, fun _ => rfl, fun hlt => absurd hs (Nat.not_le.mpr hlt), ?_⟩
    exact ⟨fun _ => hs, fun _ => ⟨_, rfl⟩⟩
  · rw [if_neg hs]
    refine ⟨rfl, fun h300 => absurd h300 hs, fun _ => rfl, ?_⟩
    constructor
    · rintro ⟨e, he⟩
      exact absurd he (by simp)
    · intro h300
      exact absurd h300 hs

/-- Witness for C9: a concrete 400 response raises the runtime error with
the status and body text, and the request list is a singleton. -/
theorem notion_status_gate_witness :
    (notion_create_page themeOkJv (ps "2026-10-12") (ps "db")
        ⟨400, ps "bad request", some (.obj [])⟩).2 =
      .error (.runtimeError 400 (ps "bad request")) ∧
    (notion_create_page themeOkJv (ps "2026-10-12") (ps "db")
        ⟨200, [], some (.obj [])⟩).2 = .ok (.obj []) := by
  have hp : ∃ q, notionPayload themeOkJv (ps "2026-10-12") (ps "db") = .ok q := ⟨_, rfl⟩
  obtain ⟨q, hq⟩ := hp
  exact ⟨(notion_status_gate themeOkJv (ps "2026-10-12") (ps "db")
            ⟨400, ps "bad request", some (.obj [])⟩ q hq (.obj []) rfl).2.1 (by decide),
         (notion_status_gate themeOkJv (ps "2026-10-12") (ps "db")
            ⟨200, [], some (.obj [])⟩ q hq (.obj []) rfl).2.2.1 (by decide)⟩

-- ### C10: the two date strings

theorem natDigitsGo_len : ∀ fuel n k : Nat, n ≤ fuel → 10 ^ k ≤ n →
    k + 1 ≤ (natDigitsGo fuel n).length := by
  intro fuel
  induction fuel with
  | zero =>
    intro n k hn hk
    have hpow : 0 < 10 ^ k := Nat.pow_pos (by decide)
    omega
  | succ fuel ih =>
    intro n k hn hk
    match n with
    | 0 =>
      have hpow : 0 < 10 ^ k := Nat.pow_pos (by decide)
      omega
    | m + 1 =>
      simp only [natDigitsGo, List.length_append, List.length_cons, List.length_nil]
      match k with
      | 0 => omega
      | k' + 1 =>
        have hdiv : (m + 1) / 10 ≤ fuel := by
          have := Nat.div_lt_self (Nat.succ_pos m) (by decide : 1 < 10)
          omega
        have hpow : 10 ^ k' ≤ (m + 1) / 10 := by
          rw [Nat.le_div_iff_mul_le (by decide : 0 < 10)]
          calc 10 ^ k' * 10 = 10 ^ (k' + 1) := (Nat.pow_succ 10 k').symm
            _ ≤ m + 1 := hk
        have := ih ((m + 1) / 10) k' hdiv hpow
        omega

theorem natDigits_len_ge {n : Nat} (h : 1000 ≤ n) : 4 ≤ (natDigits n).length := by
  have h0 : ¬ (n = 0) := by omega
  rw [natDigits, if_neg h0]
  have h3 : 10 ^ 3 ≤ n := h
  exact natDigitsGo_len n n 3 (Nat.le_refl n) h3

/-- C10: the human-readable date string handed to the Theme Extractor and
the ISO date string handed to the Digest Publisher are the same
`YYYY-MM-DD` rendering of the same Zurich-local instant (any instant with
a four-digit year, which every run instant has). -/
theorem dates_agree (now_local : PyDateTime) (h : 1000 ≤ now_local.year) :
    mainAsOfDateLocal now_local = mainAsOfIso now_local := by
  have hpad : padZero 4 (natDigits now_local.year) = natDigits now_local.year := by
    have h4 := natDigits_len_ge h
    simp [padZero, Nat.sub_eq_zero_of_le h4]
  rw [mainAsOfDateLocal]
  show natDigits now_local.year ++ '-' ::
        (padZero 2 (natDigits now_local.month) ++ '-' ::
          (padZero 2 (natDigits now_local.day) ++ ([] : List Char))) =
      mainAsOfIso now_local
  simp only [mainAsOfIso, PyDate.isoformat, PyDateTime.date, List.append_nil, hpad]

/-- Witness for C10 at a concrete run instant. -/
theorem dates_agree_witness :
    mainAsOfDateLocal ⟨2026, 10, 12, 9, 30, 0⟩ = mainAsOfIso ⟨2026, 10, 12, 9, 30, 0⟩ :=
  dates_agree ⟨2026, 10, 12, 9, 30, 0⟩ (by decide)

/-- Witness for C7 at a concrete line list with a comment line, padding
and a surviving URL line. -/
theorem read_sources_clean_witness :
    (ps "a" ≠ [] ∧ startsWithHash (ps "a") = false ∧ pyStrip (ps "a") = ps "a") ∧
    read_sources [ps " # c", ps " a "] =
      (([ps " # c", ps " a "].map pyStrip).filter (fun s => !s.isEmpty && !startsWithHash s)) :=
  ⟨(read_sources_clean_lines [ps " # c", ps " a "]).1 (ps "a") (by decide),
   (read_sources_clean_lines [ps " # c", ps " a "]).2⟩
